import Mathlib

/-!
Shallow embedding of the order service (`service_orders/index.js`) of the
micro-task gateway/orders repository, together with a spec-modelled circuit
breaker (the gateway implementation is not among the provided sources).

Timestamps are modelled as `Nat` (milliseconds since epoch); JS numbers used
for prices and totals are modelled as `ℚ`; the in-memory `Map` of orders is
modelled as a `List Order` in insertion order (JS `Map` iterates in insertion
order).
-/

namespace OrdersService

/-- The four order statuses of `updateStatusSchema` / the state machine. -/
inductive Status where
  | created
  | in_progress
  | completed
  | cancelled
deriving DecidableEq, Repr

/-- JSON string of a status, as stored in the JS order records. -/
def statusToString : Status → String
  | .created => "created"
  | .in_progress => "in_progress"
  | .completed => "completed"
  | .cancelled => "cancelled"

/-- Parsing of a raw status string against the `z.enum` of `updateStatusSchema`:
`some` exactly on the four valid statuses. -/
def statusOfString (s : String) : Option Status :=
  if s = "created" then some .created
  else if s = "in_progress" then some .in_progress
  else if s = "completed" then some .completed
  else if s = "cancelled" then some .cancelled
  else none

/-- A line item of an order (`createOrderSchema` element). The `z.number().int()`
check is reflected by typing `quantity : Int`. -/
structure Item where
  product : String
  quantity : Int
  price : ℚ
deriving DecidableEq, Repr

/-- An order record as built by the POST handler. -/
structure Order where
  id : String
  userId : String
  items : List Item
  status : Status
  totalAmount : ℚ
  createdAt : Nat
  updatedAt : Nat
deriving DecidableEq, Repr

/-- Error codes appearing in the service's error envelopes. -/
inductive ErrCode where
  | UNAUTHORIZED
  | ORDER_NOT_FOUND
  | FORBIDDEN
  | VALIDATION_ERROR
  | INVALID_STATUS_TRANSITION
  | CANNOT_CANCEL_COMPLETED
  | ALREADY_CANCELLED
  | NOT_FOUND
  | INTERNAL_ERROR
deriving DecidableEq, Repr

/-- Uniform response envelope: `ok` is `res.status(http).json(success:true, data)`,
`err` is the failure envelope with code, message and (possibly empty) details. -/
inductive Resp (α : Type) where
  | ok (http : Nat) (data : α)
  | err (http : Nat) (code : ErrCode) (message : String) (details : List String)
deriving DecidableEq, Repr

/-- The error code of a response, if it is an error. -/
def Resp.errCode {α : Type} : Resp α → Option ErrCode
  | .ok _ _ => none
  | .err _ c _ _ => some c

/-- Whether a response is a success envelope. -/
def Resp.isOk {α : Type} : Resp α → Bool
  | .ok _ _ => true
  | .err _ _ _ _ => false

/-! ### Authentication middleware -/

/-- The request headers the auth middleware looks at. `xUserId = some ""` models
an empty header value (falsy in JS, like a missing header); `xUserRoles` is the
already-parsed JSON array of the `x-user-roles` header, `none` when the header
is absent or empty. `authorization` is carried but never read by this service. -/
structure Headers where
  xUserId : Option String
  xUserRoles : Option (List String)
  authorization : Option String
deriving DecidableEq, Repr

/-- The identity attached to the request by the middleware (`req.userId`,
`req.userRoles`). -/
structure Caller where
  userId : String
  roles : List String
deriving DecidableEq, Repr

/-- `authMiddleware` of `service_orders/index.js`: 401 when `x-user-id` is
missing or empty (falsy), else attaches `userId` and the parsed roles
(empty list when the roles header is absent). -/
def authMiddleware (h : Headers) : Except (Resp Order) Caller :=
  match h.xUserId with
  | none => .error (.err 401 .UNAUTHORIZED "Не авторизован" [])
  | some u =>
    if u = "" then .error (.err 401 .UNAUTHORIZED "Не авторизован" [])
    else .ok ⟨u, h.xUserRoles.getD []⟩

/-! ### Validation (createOrderSchema) -/

/-- Zod issue messages for one item, in the order zod reports them
(object keys in shape order: product, quantity, price). -/
def itemViolations (it : Item) : List String :=
  (if it.product.length < 1 then ["Название товара обязательно"] else []) ++
  (if 200 < it.product.length then ["String must contain at most 200 character(s)"] else []) ++
  (if it.quantity ≤ 0 then ["Количество должно быть положительным числом"] else []) ++
  (if it.price ≤ 0 then ["Цена должна быть положительным числом"] else [])

/-- All zod issues of `createOrderSchema.parse` on the items array: the
array-level min/max checks first, then the per-element issues in index order. -/
def createViolations (items : List Item) : List String :=
  (if items.length < 1 then ["Заказ должен содержать хотя бы один товар"] else []) ++
  (if 100 < items.length then ["Слишком много товаров в заказе"] else []) ++
  (items.map itemViolations).flatten

/-- The validity predicate of `createOrderSchema` in plain terms. -/
def ValidItems (items : List Item) : Prop :=
  items ≠ [] ∧ items.length ≤ 100 ∧
    ∀ it ∈ items, 1 ≤ it.product.length ∧ it.product.length ≤ 200 ∧
      0 < it.quantity ∧ 0 < it.price

instance (items : List Item) : Decidable (ValidItems items) := by
  unfold ValidItems; infer_instance

/-! ### Order operations -/

/-- `parseFloat(x.toFixed(2))`: rounding to 2 decimals (round-half-up on ℚ,
matching JS on the positive totals that arise here). -/
def round2 (x : ℚ) : ℚ := ((x * 100 + 1 / 2).floor : ℚ) / 100

/-- `items.reduce((sum, item) => sum + item.price * item.quantity, 0)`. -/
def itemsSum (items : List Item) : ℚ :=
  items.foldl (fun s it => s + it.price * (it.quantity : ℚ)) 0

/-- POST /api/v1/orders: validate, compute the rounded total, build the order
with status `created` and append it to the store. `newId` models `uuidv4()`,
`now` the creation instant. Returns the new store and the response. -/
def createOrder (store : List Order) (c : Caller) (items : List Item)
    (newId : String) (now : Nat) : List Order × Resp Order :=
  match createViolations items with
  | [] =>
    let o : Order :=
      { id := newId, userId := c.userId, items := items, status := .created,
        totalAmount := round2 (itemsSum items), createdAt := now, updatedAt := now }
    (store ++ [o], .ok 201 o)
  | m :: rest => (store, .err 400 .VALIDATION_ERROR m (m :: rest))

/-- `orders.get(id)` on the insertion-ordered store. -/
def findOrder (store : List Order) (oid : String) : Option Order :=
  store.find? (fun o => o.id = oid)

/-- The ownership guard shared by the three per-id handlers:
`order.userId !== req.userId && !req.userRoles.includes('admin')`. -/
def forbidden (o : Order) (c : Caller) : Bool :=
  o.userId ≠ c.userId ∧ ¬ c.roles.contains "admin"

/-- GET /api/v1/orders/:id: not-found check, then ownership check, then 200. -/
def getOrder (store : List Order) (c : Caller) (oid : String) : Resp Order :=
  match findOrder store oid with
  | none => .err 404 .ORDER_NOT_FOUND "Заказ не найден" []
  | some o =>
    if forbidden o c then
      .err 403 .FORBIDDEN "Недостаточно прав для доступа к этому заказу" []
    else .ok 200 o

/-- PATCH /api/v1/orders/:id/status. Faithful to the handler's order of checks:
the body is parsed against `updateStatusSchema` FIRST (line 253), then the
order is looked up, then ownership, then the two absorbing-state checks, and
only then is the order mutated in place (status and updatedAt). -/
def updateStatus (store : List Order) (c : Caller) (oid : String)
    (rawStatus : String) (now : Nat) : List Order × Resp Order :=
  match statusOfString rawStatus with
  | none =>
    (store, .err 400 .VALIDATION_ERROR
      "Недопустимый статус. Допустимые значения: created, in_progress, completed, cancelled" [])
  | some newStatus =>
    match findOrder store oid with
    | none => (store, .err 404 .ORDER_NOT_FOUND "Заказ не найден" [])
    | some o =>
      if forbidden o c then
        (store, .err 403 .FORBIDDEN "Недостаточно прав для изменения статуса этого заказа" [])
      else if o.status = .completed ∧ newStatus ≠ .completed then
        (store, .err 400 .INVALID_STATUS_TRANSITION
          "Невозможно изменить статус завершенного заказа" [])
      else if o.status = .cancelled ∧ newStatus ≠ .cancelled then
        (store, .err 400 .INVALID_STATUS_TRANSITION
          "Невозможно изменить статус отмененного заказа" [])
      else
        let upd : Order := { o with status := newStatus, updatedAt := now }
        (store.map (fun x => if x.id = oid then upd else x), .ok 200 upd)

/-- DELETE /api/v1/orders/:id: not-found, ownership, then the two dedicated
absorbing-state error codes, else set status to cancelled. -/
def cancelOrder (store : List Order) (c : Caller) (oid : String) (now : Nat) :
    List Order × Resp Order :=
  match findOrder store oid with
  | none => (store, .err 404 .ORDER_NOT_FOUND "Заказ не найден" [])
  | some o =>
    if forbidden o c then
      (store, .err 403 .FORBIDDEN "Недостаточно прав для отмены этого заказа" [])
    else if o.status = .completed then
      (store, .err 400 .CANNOT_CANCEL_COMPLETED "Невозможно отменить завершенный заказ" [])
    else if o.status = .cancelled then
      (store, .err 400 .ALREADY_CANCELLED "Заказ уже отменен" [])
    else
      let upd : Order := { o with status := .cancelled, updatedAt := now }
      (store.map (fun x => if x.id = oid then upd else x), .ok 200 upd)

/-! ### List endpoint -/

/-- The record fields a `sortBy` query value can name; `other` stands for any
string that is not a field of the record (`a[sortBy]` is then `undefined` and
the comparator always returns 0). -/
inductive SortField where
  | createdAt
  | updatedAt
  | id
  | userId
  | status
  | totalAmount
  | other
deriving DecidableEq, Repr

/-- Strict comparison of two orders on one field, mirroring `aVal < bVal` in
the JS comparator (dates by timestamp, strings lexicographically, numbers
numerically; unknown fields never compare). -/
def fieldLt : SortField → Order → Order → Bool
  | .createdAt, a, b => a.createdAt < b.createdAt
  | .updatedAt, a, b => a.updatedAt < b.updatedAt
  | .id, a, b => a.id < b.id
  | .userId, a, b => a.userId < b.userId
  | .status, a, b => statusToString a.status < statusToString b.status
  | .totalAmount, a, b => a.totalAmount < b.totalAmount
  | .other, _, _ => false

/-- `x` strictly precedes `y` under the JS comparator with field `f` and
direction `asc` (comparator value < 0). -/
def sortBefore (f : SortField) (asc : Bool) (x y : Order) : Bool :=
  if asc then fieldLt f x y else fieldLt f y x

/-- Stable insertion into an already-sorted list: `x` goes after every element
it does not strictly precede. -/
def insertSorted (before : Order → Order → Bool) (x : Order) : List Order → List Order
  | [] => [x]
  | y :: ys => if before x y then x :: y :: ys else y :: insertSorted before x ys

/-- Stable sort (Node 18's `Array.prototype.sort` is stable): elements are
inserted left to right, each placed after its equals. -/
def sortOrders (before : Order → Order → Bool) (l : List Order) : List Order :=
  l.foldl (fun acc x => insertSorted before x acc) []

/-- `v || d` on a `parseInt` result: `none` models NaN; `0` is falsy in JS. -/
def jsOr (v : Option Int) (d : Int) : Int :=
  match v with
  | none => d
  | some n => if n = 0 then d else n

/-- The list-endpoint query: `page`/`limit` as `parseInt` results, `sortBy`
already resolved to a field (`none` when the parameter is absent or empty,
defaulted to `createdAt`), `asc` iff `sortOrder === 'asc'`, and the raw
`status` parameter. -/
structure ListQuery where
  page : Option Int
  limit : Option Int
  sortBy : Option SortField
  asc : Bool
  status : Option String
deriving Repr

/-- The pagination block of the list response. -/
structure Pagination where
  page : Nat
  limit : Nat
  total : Nat
  totalPages : Nat
  hasNext : Bool
  hasPrev : Bool
deriving DecidableEq, Repr

/-- The payload of the list response. -/
structure ListData where
  orders : List Order
  pagination : Pagination
deriving DecidableEq, Repr

/-- The filtered (ownership, then optional status) and sorted collection the
list endpoint paginates. -/
def listCollection (store : List Order) (c : Caller) (q : ListQuery) : List Order :=
  let owned := store.filter (fun o => o.userId = c.userId ∨ c.roles.contains "admin")
  let filtered :=
    match q.status with
    | some s =>
      if s ≠ "" ∧ (statusOfString s).isSome then
        owned.filter (fun o => statusToString o.status = s)
      else owned
    | none => owned
  sortOrders (sortBefore (q.sortBy.getD .createdAt) q.asc) filtered

/-- GET /api/v1/orders: `page = max(1, parseInt(page) || 1)`,
`limit = min(100, max(1, parseInt(limit) || 10))`, slice
`[(page-1)*limit, page*limit)`, `totalPages = ceil(total/limit)`,
`hasNext = page*limit < total`, `hasPrev = page > 1`. -/
def listOrders (store : List Order) (c : Caller) (q : ListQuery) : Resp ListData :=
  let page : Nat := (max 1 (jsOr q.page 1)).toNat
  let limit : Nat := (min 100 (max 1 (jsOr q.limit 10))).toNat
  let coll := listCollection store c q
  let total := coll.length
  let startIndex := (page - 1) * limit
  .ok 200
    { orders := (coll.drop startIndex).take limit,
      pagination :=
        { page := page, limit := limit, total := total,
          totalPages := (total + limit - 1) / limit,
          hasNext := startIndex + limit < total,
          hasPrev := 1 < page } }

end OrdersService

namespace Gateway

/-- Modelled from the spec: the circuit-breaker implementation (the gateway's
Opossum-based proxy) is not among the provided source files; this is the
three-state machine of spec §4.2. Outcome of one backend call attempt. -/
inductive Outcome where
  | success
  | failure
  | timeout
deriving DecidableEq, Repr

/-- Modelled from the spec: breaker states CLOSED / OPEN / HALF_OPEN. -/
inductive BState where
  | CLOSED
  | OPEN
  | HALF_OPEN
deriving DecidableEq, Repr

/-- Modelled from the spec: configuration parameters §4.2 and §9 name —
failure-percentage threshold, trailing-window length, minimum call volume,
and the cool-down interval. -/
structure Config where
  thresholdPct : Nat
  windowMs : Nat
  minVolume : Nat
  coolDownMs : Nat
deriving Repr

/-- Modelled from the spec: breaker state — current state, rolling outcomes
within the trailing window (timestamp, succeeded?), and the instant OPEN was
entered. -/
structure Breaker where
  state : BState
  window : List (Nat × Bool)
  openedAt : Nat
deriving DecidableEq, Repr

/-- Modelled from the spec: the per-call result — either the backend's outcome
(the backend was contacted) or the immediate fallback (it was not). -/
inductive CallResult where
  | backend (o : Outcome)
  | fallback
deriving DecidableEq, Repr

/-- Outcomes still inside the trailing window at `now`. -/
def trailing (cfg : Config) (now : Nat) (w : List (Nat × Bool)) : List (Nat × Bool) :=
  w.filter (fun e => now ≤ e.1 + cfg.windowMs)

/-- Failure count of a window. -/
def failures (w : List (Nat × Bool)) : Nat := (w.filter (fun e => ¬ e.2)).length

/-- Modelled from the spec: whether the rolling counters trip the breaker —
minimum volume observed and failure percentage exceeding the threshold. -/
def tripped (cfg : Config) (w : List (Nat × Bool)) : Bool :=
  cfg.minVolume ≤ w.length ∧ cfg.thresholdPct * w.length < 100 * failures w

/-- Modelled from the spec: the trial call of HALF_OPEN — success resets the
counters and closes the breaker; failure or timeout reopens it with the
cool-down restarted. The backend is contacted. -/
def trialCall (now : Nat) (outcome : Outcome) (b : Breaker) : Breaker × CallResult :=
  match outcome with
  | .success => ({ state := .CLOSED, window := [], openedAt := b.openedAt }, .backend .success)
  | o => ({ state := .OPEN, window := b.window, openedAt := now }, .backend o)

/-- Modelled from the spec: one call through the breaker. `outcome` is what the
backend would answer if contacted. CLOSED records the outcome in the rolling
window and trips to OPEN past the threshold; OPEN before the cool-down returns
the fallback without contacting the backend; OPEN after the cool-down, and
HALF_OPEN, run the single trial call. -/
def call (cfg : Config) (b : Breaker) (now : Nat) (outcome : Outcome) :
    Breaker × CallResult :=
  match b.state with
  | .CLOSED =>
    let w := trailing cfg now b.window ++ [(now, outcome == .success)]
    if tripped cfg w then
      ({ state := .OPEN, window := w, openedAt := now }, .backend outcome)
    else
      ({ state := .CLOSED, window := w, openedAt := b.openedAt }, .backend outcome)
  | .OPEN =>
    if now < b.openedAt + cfg.coolDownMs then (b, .fallback)
    else trialCall now outcome b
  | .HALF_OPEN => trialCall now outcome b

end Gateway

/-! ## Theorems -/

namespace OrdersService

lemma statusOfString_statusToString (s : Status) :
    statusOfString (statusToString s) = some s := by
  cases s <;> decide

lemma forbidden_eq_false_iff (o : Order) (c : Caller) :
    forbidden o c = false ↔ (o.userId = c.userId ∨ c.roles.contains "admin" = true) := by
  simp [forbidden, not_and_or]
  tauto

/-- C10: authentication at the order service is only the presence of a
non-empty `x-user-id` header: such requests pass regardless of the
authorization header, a missing roles header yields an empty role set, and
only a missing or empty `x-user-id` yields 401. -/
theorem c10_auth_is_header_presence (h : Headers) :
    ((h.xUserId = none ∨ h.xUserId = some "") →
      authMiddleware h = .error (.err 401 .UNAUTHORIZED "Не авторизован" [])) ∧
    (∀ u, h.xUserId = some u → u ≠ "" →
      authMiddleware h = .ok ⟨u, h.xUserRoles.getD []⟩) ∧
    (∀ t, authMiddleware { h with authorization := t } = authMiddleware h) := by
  refine ⟨?_, ?_, ?_⟩
  · rintro (hu | hu) <;> simp [authMiddleware, hu]
  · intro u hu hne
    simp [authMiddleware, hu, hne]
  · intro t
    cases hu : h.xUserId <;> simp [authMiddleware, hu]

/-- Closed witness for C10: a request with no `x-user-id` is rejected with 401
even when it carries a bearer token; a request with `x-user-id` and no roles
header passes with an empty role set. -/
theorem c10_auth_is_header_presence_witness :
    authMiddleware ⟨none, some ["admin"], some "Bearer tok"⟩ =
      .error (.err 401 .UNAUTHORIZED "Не авторизован" []) ∧
    authMiddleware ⟨some "A", none, none⟩ = .ok ⟨"A", []⟩ :=
  ⟨(c10_auth_is_header_presence ⟨none, some ["admin"], some "Bearer tok"⟩).1 (Or.inl rfl),
   (c10_auth_is_header_presence ⟨some "A", none, none⟩).2.1 "A" rfl (by decide)⟩

/-- C1: on every stored order, read-single, update-status and cancel all fail
with 403 FORBIDDEN when the caller is neither the owner nor an admin, and none
of them fails with FORBIDDEN (the operation proceeds) when the caller is the
owner or holds the admin role. -/
theorem c1_ownership_check (store : List Order) (c : Caller) (oid : String)
    (o : Order) (t : Status) (now : Nat)
    (hfind : findOrder store oid = some o) :
    (forbidden o c = false ↔ (o.userId = c.userId ∨ c.roles.contains "admin" = true)) ∧
    (forbidden o c = true →
      getOrder store c oid =
        .err 403 .FORBIDDEN "Недостаточно прав для доступа к этому заказу" [] ∧
      updateStatus store c oid (statusToString t) now =
        (store, .err 403 .FORBIDDEN "Недостаточно прав для изменения статуса этого заказа" []) ∧
      cancelOrder store c oid now =
        (store, .err 403 .FORBIDDEN "Недостаточно прав для отмены этого заказа" [])) ∧
    (forbidden o c = false →
      getOrder store c oid = .ok 200 o ∧
      (updateStatus store c oid (statusToString t) now).2.errCode ≠ some .FORBIDDEN ∧
      (cancelOrder store c oid now).2.errCode ≠ some .FORBIDDEN) := by
  refine ⟨forbidden_eq_false_iff o c, ?_, ?_⟩
  · intro hf
    refine ⟨?_, ?_, ?_⟩
    · simp [getOrder, hfind, hf]
    · simp [updateStatus, statusOfString_statusToString, hfind, hf]
    · simp [cancelOrder, hfind, hf]
  · intro hf
    have hf' : ¬ forbidden o c = true := by simp [hf]
    refine ⟨?_, ?_, ?_⟩
    · simp [getOrder, hfind, hf]
    · simp only [updateStatus, statusOfString_statusToString, hfind, if_neg hf']
      split
      · simp [Resp.errCode]
      · split <;> simp [Resp.errCode]
    · simp only [cancelOrder, hfind, if_neg hf']
      split
      · simp [Resp.errCode]
      · split <;> simp [Resp.errCode]

/-- Closed witness for C1: order owned by "A"; caller "B" with role user is
rejected on all three operations, the owner and an admin pass the check. -/
theorem c1_ownership_check_witness :
    getOrder [⟨"o1", "A", [], .created, 0, 0, 0⟩] ⟨"B", ["user"]⟩ "o1" =
      .err 403 .FORBIDDEN "Недостаточно прав для доступа к этому заказу" [] ∧
    getOrder [⟨"o1", "A", [], .created, 0, 0, 0⟩] ⟨"A", []⟩ "o1" =
      .ok 200 ⟨"o1", "A", [], .created, 0, 0, 0⟩ ∧
    (getOrder [⟨"o1", "A", [], .created, 0, 0, 0⟩] ⟨"B", ["admin"]⟩ "o1").errCode ≠
      some .FORBIDDEN := by
  refine ⟨((c1_ownership_check [⟨"o1", "A", [], .created, 0, 0, 0⟩] ⟨"B", ["user"]⟩ "o1"
      ⟨"o1", "A", [], .created, 0, 0, 0⟩ .created 0 (by decide)).2.1 (by decide)).1,
    ((c1_ownership_check [⟨"o1", "A", [], .created, 0, 0, 0⟩] ⟨"A", []⟩ "o1"
      ⟨"o1", "A", [], .created, 0, 0, 0⟩ .created 0 (by decide)).2.2 (by decide)).1, ?_⟩
  have h := ((c1_ownership_check [⟨"o1", "A", [], .created, 0, 0, 0⟩] ⟨"B", ["admin"]⟩ "o1"
      ⟨"o1", "A", [], .created, 0, 0, 0⟩ .created 0 (by decide)).2.2 (by decide)).1
  rw [h]
  decide

/-- C4 counterexample: the PATCH handler parses the body against
`updateStatusSchema` before looking the order up, so a request whose
identifier is absent from the store but whose target status is invalid fails
with VALIDATION_ERROR, not with ORDER_NOT_FOUND as the claim requires. -/
theorem c4_counterexample :
    findOrder [] "missing" = none ∧
    (updateStatus [] ⟨"A", []⟩ "missing" "bogus" 0).2.errCode =
      some .VALIDATION_ERROR ∧
    some ErrCode.VALIDATION_ERROR ≠ some ErrCode.ORDER_NOT_FOUND := by
  refine ⟨rfl, ?_, by decide⟩
  decide

/-- C4 (amended): read-single and cancel resolve the identifier first and fail
with NotFound regardless of the caller; update-status validates the target
status first (an invalid status fails with ValidationError regardless of the
store), and once the target status is valid the NotFound check precedes the
ownership check (it fails with NotFound regardless of the caller). -/
theorem c4_order_of_checks (store : List Order) (c : Caller) (oid raw : String)
    (now : Nat) :
    (findOrder store oid = none →
      getOrder store c oid = .err 404 .ORDER_NOT_FOUND "Заказ не найден" [] ∧
      cancelOrder store c oid now =
        (store, .err 404 .ORDER_NOT_FOUND "Заказ не найден" [])) ∧
    (statusOfString raw = none →
      updateStatus store c oid raw now =
        (store, .err 400 .VALIDATION_ERROR
          "Недопустимый статус. Допустимые значения: created, in_progress, completed, cancelled" [])) ∧
    (statusOfString raw ≠ none → findOrder store oid = none →
      updateStatus store c oid raw now =
        (store, .err 404 .ORDER_NOT_FOUND "Заказ не найден" [])) := by
  refine ⟨?_, ?_, ?_⟩
  · intro hnone
    exact ⟨by simp [getOrder, hnone], by simp [cancelOrder, hnone]⟩
  · intro hraw
    simp [updateStatus, hraw]
  · intro hraw hnone
    rcases Option.ne_none_iff_exists.mp hraw with ⟨s, hs⟩
    simp [updateStatus, ← hs, hnone]

/-- Closed witness for C4 (amended): on the empty store, cancel of an unknown
id is 404; update-status with an invalid body is 400; update-status with a
valid body and an unknown id is 404. -/
theorem c4_order_of_checks_witness :
    cancelOrder [] ⟨"A", []⟩ "x" 0 =
      ([], .err 404 .ORDER_NOT_FOUND "Заказ не найден" []) ∧
    updateStatus [] ⟨"A", []⟩ "x" "bogus" 0 =
      ([], .err 400 .VALIDATION_ERROR
        "Недопустимый статус. Допустимые значения: created, in_progress, completed, cancelled" []) ∧
    updateStatus [] ⟨"A", []⟩ "x" "completed" 0 =
      ([], .err 404 .ORDER_NOT_FOUND "Заказ не найден" []) :=
  ⟨((c4_order_of_checks [] ⟨"A", []⟩ "x" "bogus" 0).1 rfl).2,
   (c4_order_of_checks [] ⟨"A", []⟩ "x" "bogus" 0).2.1 (by decide),
   (c4_order_of_checks [] ⟨"A", []⟩ "x" "completed" 0).2.2 (by decide) rfl⟩

/-- C2: for an authorized caller on a stored order — if the order is completed
or cancelled, any update targeting a different status fails with
INVALID_STATUS_TRANSITION and the store is unchanged; an update targeting the
current status succeeds; and from a non-absorbing status any of the four valid
statuses is accepted unconditionally. -/
theorem c2_status_transitions (store : List Order) (c : Caller) (oid : String)
    (o : Order) (t : Status) (now : Nat)
    (hfind : findOrder store oid = some o)
    (hauth : forbidden o c = false) :
    ((o.status = .completed ∨ o.status = .cancelled) → t ≠ o.status →
      (updateStatus store c oid (statusToString t) now).1 = store ∧
      (updateStatus store c oid (statusToString t) now).2.errCode =
        some .INVALID_STATUS_TRANSITION) ∧
    ((updateStatus store c oid (statusToString o.status) now).2.isOk = true) ∧
    ((o.status = .created ∨ o.status = .in_progress) →
      (updateStatus store c oid (statusToString t) now).2.isOk = true) := by
  have hf' : ¬ forbidden o c = true := by simp [hauth]
  refine ⟨?_, ?_, ?_⟩
  · intro habs hne
    rcases habs with hs | hs
    · have ht : ¬ t = Status.completed := by rw [hs] at hne; exact hne
      simp [updateStatus, statusOfString_statusToString, hfind, if_neg hf', hs, ht,
        Resp.errCode]
    · have ht : ¬ t = Status.cancelled := by rw [hs] at hne; exact hne
      simp [updateStatus, statusOfString_statusToString, hfind, if_neg hf', hs, ht,
        Resp.errCode]
  · simp only [updateStatus, statusOfString_statusToString, hfind, if_neg hf']
    have h1 : ¬ (o.status = Status.completed ∧ ¬ o.status = Status.completed) := by tauto
    have h2 : ¬ (o.status = Status.cancelled ∧ ¬ o.status = Status.cancelled) := by tauto
    simp [if_neg h1, if_neg h2, Resp.isOk]
  · intro hs
    have h1 : ¬ o.status = Status.completed := by rcases hs with h | h <;> simp [h]
    have h2 : ¬ o.status = Status.cancelled := by rcases hs with h | h <;> simp [h]
    simp [updateStatus, statusOfString_statusToString, hfind, if_neg hf', h1, h2, Resp.isOk]

/-- Closed witness for C2: a cancelled order rejects a move to in_progress and
the store is unchanged, accepts a no-op move to cancelled, and a created order
accepts a direct move to completed. -/
theorem c2_status_transitions_witness :
    (updateStatus [⟨"o1", "A", [], .cancelled, 0, 0, 0⟩] ⟨"A", []⟩ "o1" "in_progress" 9).1 =
      [⟨"o1", "A", [], .cancelled, 0, 0, 0⟩] ∧
    (updateStatus [⟨"o1", "A", [], .cancelled, 0, 0, 0⟩] ⟨"A", []⟩ "o1" "in_progress" 9).2.errCode =
      some .INVALID_STATUS_TRANSITION ∧
    (updateStatus [⟨"o1", "A", [], .cancelled, 0, 0, 0⟩] ⟨"A", []⟩ "o1" "cancelled" 9).2.isOk = true ∧
    (updateStatus [⟨"o1", "A", [], .created, 0, 0, 0⟩] ⟨"A", []⟩ "o1" "completed" 9).2.isOk = true := by
  have h1 := (c2_status_transitions [⟨"o1", "A", [], .cancelled, 0, 0, 0⟩] ⟨"A", []⟩ "o1"
    ⟨"o1", "A", [], .cancelled, 0, 0, 0⟩ .in_progress 9 (by decide) (by decide)).1
    (Or.inr rfl) (by decide)
  have h2 := (c2_status_transitions [⟨"o1", "A", [], .cancelled, 0, 0, 0⟩] ⟨"A", []⟩ "o1"
    ⟨"o1", "A", [], .cancelled, 0, 0, 0⟩ .created 9 (by decide) (by decide)).2.1
  have h3 := (c2_status_transitions [⟨"o1", "A", [], .created, 0, 0, 0⟩] ⟨"A", []⟩ "o1"
    ⟨"o1", "A", [], .created, 0, 0, 0⟩ .completed 9 (by decide) (by decide)).2.2
    (Or.inl rfl)
  exact ⟨h1.1, h1.2, h2, h3⟩

/-- C6: for an authorized caller on a stored order, cancel fails with
CANNOT_CANCEL_COMPLETED on a completed order and with ALREADY_CANCELLED on a
cancelled order (store unchanged), otherwise sets the status to cancelled and
succeeds; the two cancel-path codes are distinct from each other and from the
INVALID_STATUS_TRANSITION code of the status-update path. -/
theorem c6_cancel_paths (store : List Order) (c : Caller) (oid : String)
    (o : Order) (now : Nat)
    (hfind : findOrder store oid = some o)
    (hauth : forbidden o c = false) :
    (o.status = .completed →
      cancelOrder store c oid now =
        (store, .err 400 .CANNOT_CANCEL_COMPLETED "Невозможно отменить завершенный заказ" [])) ∧
    (o.status = .cancelled →
      cancelOrder store c oid now =
        (store, .err 400 .ALREADY_CANCELLED "Заказ уже отменен" [])) ∧
    (o.status ≠ .completed → o.status ≠ .cancelled →
      (cancelOrder store c oid now).2 =
        .ok 200 { o with status := .cancelled, updatedAt := now } ∧
      (cancelOrder store c oid now).1 =
        store.map (fun x =>
          if x.id = oid then { o with status := .cancelled, updatedAt := now } else x)) ∧
    (ErrCode.CANNOT_CANCEL_COMPLETED ≠ ErrCode.INVALID_STATUS_TRANSITION ∧
     ErrCode.ALREADY_CANCELLED ≠ ErrCode.INVALID_STATUS_TRANSITION ∧
     ErrCode.CANNOT_CANCEL_COMPLETED ≠ ErrCode.ALREADY_CANCELLED) := by
  have hf' : ¬ forbidden o c = true := by simp [hauth]
  refine ⟨?_, ?_, ?_, by decide, by decide, by decide⟩
  · intro hs
    simp [cancelOrder, hfind, if_neg hf', hs]
  · intro hs
    simp [cancelOrder, hfind, if_neg hf', hs]
  · intro h1 h2
    simp [cancelOrder, hfind, if_neg hf', h1, h2]

/-- Closed witness for C6: completed order cannot be cancelled, cancelled order
is already cancelled, a created order is cancelled successfully. -/
theorem c6_cancel_paths_witness :
    cancelOrder [⟨"o1", "A", [], .completed, 0, 0, 0⟩] ⟨"A", []⟩ "o1" 9 =
      ([⟨"o1", "A", [], .completed, 0, 0, 0⟩],
        .err 400 .CANNOT_CANCEL_COMPLETED "Невозможно отменить завершенный заказ" []) ∧
    cancelOrder [⟨"o1", "A", [], .cancelled, 0, 0, 0⟩] ⟨"A", []⟩ "o1" 9 =
      ([⟨"o1", "A", [], .cancelled, 0, 0, 0⟩],
        .err 400 .ALREADY_CANCELLED "Заказ уже отменен" []) ∧
    (cancelOrder [⟨"o1", "A", [], .created, 0, 0, 0⟩] ⟨"A", []⟩ "o1" 9).2 =
      .ok 200 ⟨"o1", "A", [], .cancelled, 0, 0, 9⟩ := by
  refine ⟨(c6_cancel_paths [⟨"o1", "A", [], .completed, 0, 0, 0⟩] ⟨"A", []⟩ "o1"
      ⟨"o1", "A", [], .completed, 0, 0, 0⟩ 9 (by decide) (by decide)).1 rfl,
    (c6_cancel_paths [⟨"o1", "A", [], .cancelled, 0, 0, 0⟩] ⟨"A", []⟩ "o1"
      ⟨"o1", "A", [], .cancelled, 0, 0, 0⟩ 9 (by decide) (by decide)).2.1 rfl,
    ((c6_cancel_paths [⟨"o1", "A", [], .created, 0, 0, 0⟩] ⟨"A", []⟩ "o1"
      ⟨"o1", "A", [], .created, 0, 0, 0⟩ 9 (by decide) (by decide)).2.2.1
      (by decide) (by decide)).1⟩

/-- C9: every error response of update-status or cancel leaves the store
completely unchanged. -/
theorem c9_errors_leave_store_unchanged (store : List Order) (c : Caller)
    (oid raw : String) (now http : Nat) (code : ErrCode) (msg : String)
    (det : List String) :
    ((updateStatus store c oid raw now).2 = .err http code msg det →
      (updateStatus store c oid raw now).1 = store) ∧
    ((cancelOrder store c oid now).2 = .err http code msg det →
      (cancelOrder store c oid now).1 = store) := by
  constructor
  · unfold updateStatus
    split
    · simp
    · split
      · simp
      · split
        · simp
        · split
          · simp
          · split
            · simp
            · simp
  · unfold cancelOrder
    split
    · simp
    · split
      · simp
      · split
        · simp
        · split
          · simp
          · simp

lemma ite_singleton_eq_nil {c : Prop} [Decidable c] (x : String) :
    (if c then [x] else []) = ([] : List String) ↔ ¬ c := by
  split <;> simp [*]

lemma itemViolations_eq_nil_iff (it : Item) :
    itemViolations it = [] ↔
      (1 ≤ it.product.length ∧ it.product.length ≤ 200 ∧
        0 < it.quantity ∧ 0 < it.price) := by
  simp only [itemViolations, List.append_eq_nil, ite_singleton_eq_nil, not_lt, not_le]
  tauto

lemma createViolations_eq_nil_iff (items : List Item) :
    createViolations items = [] ↔ ValidItems items := by
  unfold createViolations ValidItems
  rw [List.append_eq_nil, List.append_eq_nil, ite_singleton_eq_nil, ite_singleton_eq_nil,
    List.flatten_eq_nil_iff]
  constructor
  · rintro ⟨⟨h1, h2⟩, h3⟩
    rw [not_lt] at h1 h2
    refine ⟨?_, by omega, fun it hit => ?_⟩
    · intro hnil
      rw [hnil] at h1
      simp at h1
    · exact (itemViolations_eq_nil_iff it).mp
        (h3 (itemViolations it) (List.mem_map_of_mem itemViolations hit))
  · rintro ⟨h1, h2, h3⟩
    have hl : 0 < items.length := List.length_pos.mpr h1
    refine ⟨⟨by omega, by omega⟩, fun l hml => ?_⟩
    rcases List.mem_map.mp hml with ⟨it, hit, rfl⟩
    exact (itemViolations_eq_nil_iff it).mpr (h3 it hit)

/-- C7: create succeeds exactly on valid item sequences (non-empty, at most
100 items, product name 1–200 characters, positive integer quantity, positive
price); otherwise it fails with VALIDATION_ERROR whose message is the first
violation, whose details list every violation, and the store is unchanged. -/
theorem c7_create_validation (store : List Order) (c : Caller)
    (items : List Item) (nid : String) (now : Nat) :
    ((createOrder store c items nid now).2.isOk = true ↔ ValidItems items) ∧
    (¬ ValidItems items →
      (createOrder store c items nid now).1 = store ∧
      (createOrder store c items nid now).2 =
        .err 400 .VALIDATION_ERROR ((createViolations items).headD "")
          (createViolations items)) := by
  unfold createOrder
  cases hv : createViolations items with
  | nil =>
    have : ValidItems items := (createViolations_eq_nil_iff items).mp hv
    simp [Resp.isOk, this]
  | cons m rest =>
    have : ¬ ValidItems items := by
      intro hvalid
      rw [(createViolations_eq_nil_iff items).mpr hvalid] at hv
      cases hv
    simp [Resp.isOk, this]

/-- Closed witness for C7: the empty items array is rejected with the
first-violation message and the store stays empty. -/
theorem c7_create_validation_witness :
    (createOrder [] ⟨"A", []⟩ [] "o1" 0).1 = [] ∧
    (createOrder [] ⟨"A", []⟩ [] "o1" 0).2 =
      .err 400 .VALIDATION_ERROR "Заказ должен содержать хотя бы один товар"
        ["Заказ должен содержать хотя бы один товар"] :=
  (c7_create_validation [] ⟨"A", []⟩ [] "o1" 0).2 (by decide)

lemma mem_same_id_eq (store : List Order)
    (hp : store.Pairwise (fun a b => a.id ≠ b.id)) (x y : Order)
    (hx : x ∈ store) (hy : y ∈ store) (hid : x.id = y.id) : x = y := by
  induction store with
  | nil => cases hx
  | cons a l ih =>
    rcases List.pairwise_cons.mp hp with ⟨ha, hl⟩
    rcases List.mem_cons.mp hx with hx1 | hx1 <;>
      rcases List.mem_cons.mp hy with hy1 | hy1
    · rw [hx1, hy1]
    · exact absurd hid (hx1 ▸ ha y hy1)
    · exact absurd hid.symm (hy1 ▸ ha x hx1)
    · exact ih hl hx1 hy1

lemma findOrder_mem_id (store : List Order) (oid : String) (o : Order)
    (h : findOrder store oid = some o) : o ∈ store ∧ o.id = oid := by
  induction store with
  | nil => cases h
  | cons a l ih =>
    by_cases hpa : a.id = oid
    · have hhd : findOrder (a :: l) oid = some a := by
        simp [findOrder, List.find?_cons, hpa]
      rw [hhd] at h
      injection h with h
      subst h
      exact ⟨List.mem_cons_self a l, hpa⟩
    · have hstep : findOrder (a :: l) oid = findOrder l oid := by
        simp [findOrder, List.find?_cons, hpa]
      rw [hstep] at h
      rcases ih h with ⟨hm, hid⟩
      exact ⟨List.mem_cons_of_mem a hm, hid⟩

lemma map_id_total_update (store : List Order)
    (hp : store.Pairwise (fun a b => a.id ≠ b.id)) (o upd : Order) (oid : String)
    (ho : findOrder store oid = some o) (hid : upd.id = o.id)
    (htot : upd.totalAmount = o.totalAmount) :
    (store.map (fun x => if x.id = oid then upd else x)).map
        (fun x => (x.id, x.totalAmount)) =
      store.map (fun x => (x.id, x.totalAmount)) := by
  rw [List.map_map]
  apply List.map_congr_left
  intro x hx
  by_cases hxe : x.id = oid
  · have hmem : o ∈ store := (findOrder_mem_id store oid o ho).1
    have hoid : o.id = oid := (findOrder_mem_id store oid o ho).2
    have hxo : x = o := mem_same_id_eq store hp x o hx hmem (hxe.trans hoid.symm)
    simp [Function.comp, hxe, hxo, hid, htot, hoid]
  · simp [Function.comp, hxe]

/-- C3: on success, create computes the total as the 2-decimal rounding of
Σ quantity×price and sets status = created, appending the order to the store;
and no update-status or cancel call ever changes any stored order's
totalAmount (ids and totals are preserved across both operations). -/
theorem c3_total_amount (store : List Order) (c c2 : Caller)
    (items : List Item) (nid oid raw : String) (now now2 : Nat)
    (hp : store.Pairwise (fun a b => a.id ≠ b.id)) :
    (∀ h d, (createOrder store c items nid now).2 = .ok h d →
      d.totalAmount = round2 (itemsSum items) ∧ d.status = .created ∧
      (createOrder store c items nid now).1 = store ++ [d]) ∧
    ((updateStatus store c2 oid raw now2).1.map (fun x => (x.id, x.totalAmount)) =
      store.map (fun x => (x.id, x.totalAmount))) ∧
    ((cancelOrder store c2 oid now2).1.map (fun x => (x.id, x.totalAmount)) =
      store.map (fun x => (x.id, x.totalAmount))) := by
  refine ⟨?_, ?_, ?_⟩
  · intro h d
    unfold createOrder
    cases hv : createViolations items with
    | nil =>
      intro heq
      simp only [Resp.ok.injEq] at heq
      rw [← heq.2]
      exact ⟨rfl, rfl, rfl⟩
    | cons m rest => intro heq; cases heq
  · unfold updateStatus
    cases hs : statusOfString raw with
    | none => simp
    | some s =>
      cases hfo : findOrder store oid with
      | none => simp
      | some o =>
        by_cases hff : forbidden o c2 = true
        · simp [hff]
        · simp only [if_neg hff]
          split
          · simp
          · split
            · simp
            · exact map_id_total_update store hp o _ oid hfo rfl rfl
  · unfold cancelOrder
    cases hfo : findOrder store oid with
    | none => simp
    | some o =>
      by_cases hff : forbidden o c2 = true
      · simp [hff]
      · simp only [if_neg hff]
        split
        · simp
        · split
          · simp
          · exact map_id_total_update store hp o _ oid hfo rfl rfl

lemma ratFloor_eq_intFloor (q : ℚ) : q.floor = ⌊q⌋ := by
  rw [Rat.floor_def', Rat.floor_def]

lemma round2_cement : round2 (itemsSum [⟨"Cement", 50, 350⟩]) = 17500 := by
  have h : itemsSum [⟨"Cement", 50, 350⟩] = 17500 := by
    simp [itemsSum]
    norm_num
  rw [h, round2, ratFloor_eq_intFloor]
  norm_num

/-- Closed witness for C3: the spec scenario — one item Cement ×50 at 350
gives totalAmount 17500 and status created; a later status update and a cancel
leave the id/totalAmount pairs of the store untouched. -/
theorem c3_total_amount_witness :
    (createOrder [] ⟨"A", []⟩ [⟨"Cement", 50, 350⟩] "o1" 0).2 =
      .ok 201 ⟨"o1", "A", [⟨"Cement", 50, 350⟩], .created, 17500, 0, 0⟩ ∧
    (updateStatus [⟨"o1", "A", [], .created, 17500, 0, 0⟩] ⟨"A", []⟩ "o1"
        "in_progress" 9).1.map (fun x => (x.id, x.totalAmount)) =
      [("o1", (17500 : ℚ))] ∧
    (cancelOrder [⟨"o1", "A", [], .created, 17500, 0, 0⟩] ⟨"A", []⟩ "o1"
        9).1.map (fun x => (x.id, x.totalAmount)) = [("o1", (17500 : ℚ))] := by
  have h := c3_total_amount [⟨"o1", "A", [], .created, 17500, 0, 0⟩] ⟨"A", []⟩
    ⟨"A", []⟩ [] "n" "o1" "in_progress" 0 9 (by simp)
  have hc := (c3_total_amount ([] : List Order) ⟨"A", []⟩ ⟨"A", []⟩
    [⟨"Cement", 50, 350⟩] "o1" "o1" "in_progress" 0 9 (by simp)).1
  refine ⟨?_, ?_, ?_⟩
  · have hval : createViolations [⟨"Cement", 50, 350⟩] = [] := by
      apply (createViolations_eq_nil_iff _).mpr
      refine ⟨by simp, by simp, ?_⟩
      rintro it hit
      simp only [List.mem_singleton] at hit
      subst hit
      refine ⟨by decide, by decide, by norm_num, by norm_num⟩
    simp only [createOrder, hval]
    rw [round2_cement]
  · rw [h.2.1]
    simp
  · rw [h.2.2]
    simp

lemma lt_ceil_pages_iff (t l p : Nat) (hl : 0 < l) :
    p < (t + l - 1) / l ↔ p * l < t := by
  rw [Nat.lt_iff_add_one_le, Nat.le_div_iff_mul_le hl, Nat.succ_mul]
  generalize p * l = m
  omega

lemma pages_sizes_sum (k : Nat) (hk : 0 < k) :
    ∀ (n : Nat) (l : List Order), l.length = n →
      ((List.range ((n + k - 1) / k)).map
        (fun i => ((l.drop (i * k)).take k).length)).sum = n := by
  intro n
  induction n using Nat.strong_induction_on with
  | _ n ih =>
    intro l hl
    rcases Nat.eq_zero_or_pos n with h0 | hpos
    · subst h0
      rw [Nat.div_eq_of_lt (by omega)]
      simp
    · have hP : (n + k - 1) / k = ((n - k) + k - 1) / k + 1 := by
        by_cases hnk : n ≤ k
        · have e1 : n + k - 1 = (n - 1) + k := by omega
          have e2 : n - k = 0 := by omega
          rw [e1, Nat.add_div_right _ hk, Nat.div_eq_of_lt (by omega), e2,
            Nat.div_eq_of_lt (by omega)]
        · have e1 : n + k - 1 = (n - 1) + k := by omega
          have e2 : n - k + k - 1 = (n - k - 1) + k := by omega
          rw [e1, Nat.add_div_right _ hk, e2, Nat.add_div_right _ hk]
          have e3 : n - 1 = (n - k - 1) + k := by omega
          rw [e3, Nat.add_div_right _ hk]
      rw [hP, List.range_succ_eq_map, List.map_cons, List.sum_cons, List.map_map]
      have hmap : (List.range ((n - k + k - 1) / k)).map
          ((fun i => ((l.drop (i * k)).take k).length) ∘ Nat.succ) =
          (List.range ((n - k + k - 1) / k)).map
          (fun i => (((l.drop k).drop (i * k)).take k).length) := by
        apply List.map_congr_left
        intro i _
        simp only [Function.comp_apply]
        rw [List.drop_drop]
        congr 2
        rw [Nat.succ_mul, Nat.mul_comm i k, Nat.add_comm (k * i) k]
      rw [hmap, ih (n - k) (by omega) (l.drop k) (by simp [hl])]
      simp only [Nat.zero_mul, List.drop_zero, List.length_take, hl]
      omega

/-- C5: the list endpoint's effective page is max(1, requested, default 1), the
effective limit is clamped into [1,100] (default 10), the returned page is the
slice [(page-1)·limit, page·limit) of the filtered and sorted collection,
totalPages is the ceiling of total/limit, the page sizes over all pages sum to
total, hasNext ⇔ page < totalPages, and hasPrev ⇔ page > 1. -/
theorem c5_list_pagination (store : List Order) (c : Caller) (q : ListQuery) :
    ∀ h d, listOrders store c q = .ok h d →
      d.pagination.page = (max 1 (jsOr q.page 1)).toNat ∧
      d.pagination.limit = (min 100 (max 1 (jsOr q.limit 10))).toNat ∧
      1 ≤ d.pagination.page ∧
      (1 ≤ d.pagination.limit ∧ d.pagination.limit ≤ 100) ∧
      d.pagination.total = (listCollection store c q).length ∧
      d.orders = ((listCollection store c q).drop
        ((d.pagination.page - 1) * d.pagination.limit)).take d.pagination.limit ∧
      d.pagination.totalPages =
        (d.pagination.total + d.pagination.limit - 1) / d.pagination.limit ∧
      (d.pagination.hasNext = true ↔ d.pagination.page < d.pagination.totalPages) ∧
      (d.pagination.hasPrev = true ↔ 1 < d.pagination.page) ∧
      ((List.range d.pagination.totalPages).map
        (fun i => (((listCollection store c q).drop (i * d.pagination.limit)).take
          d.pagination.limit).length)).sum = d.pagination.total := by
  intro h d heq
  unfold listOrders at heq
  injection heq with h1 h2
  subst h2
  have hp1 : 1 ≤ (max 1 (jsOr q.page 1)).toNat := by
    have := le_max_left (1 : Int) (jsOr q.page 1)
    omega
  have hlim1 : 1 ≤ (min 100 (max 1 (jsOr q.limit 10))).toNat ∧
      (min 100 (max 1 (jsOr q.limit 10))).toNat ≤ 100 := by
    have h1 := le_max_left (1 : Int) (jsOr q.limit 10)
    rcases le_or_lt (max 1 (jsOr q.limit 10)) 100 with hc | hc
    · rw [min_eq_right hc]
      omega
    · rw [min_eq_left (le_of_lt hc)]
      omega
  refine ⟨rfl, rfl, hp1, hlim1, rfl, rfl, rfl, ?_, by simp, ?_⟩
  · simp only [decide_eq_true_eq]
    obtain ⟨p', hp'⟩ : ∃ p', (max 1 (jsOr q.page 1)).toNat = p' + 1 :=
      ⟨(max 1 (jsOr q.page 1)).toNat - 1, by omega⟩
    rw [hp']
    have hmul : (p' + 1 - 1) * (min 100 (max 1 (jsOr q.limit 10))).toNat +
        (min 100 (max 1 (jsOr q.limit 10))).toNat =
        (p' + 1) * (min 100 (max 1 (jsOr q.limit 10))).toNat := by
      rw [Nat.succ_mul]
      simp
    rw [hmul]
    exact (lt_ceil_pages_iff (listCollection store c q).length
      (min 100 (max 1 (jsOr q.limit 10))).toNat (p' + 1) (by omega)).symm
  · exact pages_sizes_sum (min 100 (max 1 (jsOr q.limit 10))).toNat (by omega)
      (listCollection store c q).length (listCollection store c q) rfl

/-- Closed witness for C5: three owned orders, page 1 with limit 2 — the
pagination identities instantiated at a concrete response (totalPages = 2,
hasNext ⇔ 1 < 2, hasPrev ⇔ false). -/
theorem c5_list_pagination_witness :
    listOrders [⟨"0", "A", [], .created, 0, 0, 0⟩, ⟨"1", "A", [], .created, 0, 1, 1⟩,
        ⟨"2", "A", [], .created, 0, 2, 2⟩] ⟨"A", []⟩ ⟨some 1, some 2, none, false, none⟩ =
      .ok 200 ⟨[⟨"2", "A", [], .created, 0, 2, 2⟩, ⟨"1", "A", [], .created, 0, 1, 1⟩],
        ⟨1, 2, 3, 2, true, false⟩⟩ ∧
    ((true : Bool) = true ↔ 1 < 2) ∧ ((false : Bool) = true ↔ 1 < 1) := by
  have heq : listOrders [⟨"0", "A", [], .created, 0, 0, 0⟩, ⟨"1", "A", [], .created, 0, 1, 1⟩,
      ⟨"2", "A", [], .created, 0, 2, 2⟩] ⟨"A", []⟩ ⟨some 1, some 2, none, false, none⟩ =
      .ok 200 ⟨[⟨"2", "A", [], .created, 0, 2, 2⟩, ⟨"1", "A", [], .created, 0, 1, 1⟩],
        ⟨1, 2, 3, 2, true, false⟩⟩ := by decide
  have h := c5_list_pagination [⟨"0", "A", [], .created, 0, 0, 0⟩,
      ⟨"1", "A", [], .created, 0, 1, 1⟩, ⟨"2", "A", [], .created, 0, 2, 2⟩] ⟨"A", []⟩
      ⟨some 1, some 2, none, false, none⟩ 200
      ⟨[⟨"2", "A", [], .created, 0, 2, 2⟩, ⟨"1", "A", [], .created, 0, 1, 1⟩],
        ⟨1, 2, 3, 2, true, false⟩⟩ heq
  exact ⟨heq, h.2.2.2.2.2.2.2.1, h.2.2.2.2.2.2.2.2.1⟩

/-- Closed witness for C9: a 404 from each path leaves the (empty) store
unchanged. -/
theorem c9_errors_leave_store_unchanged_witness :
    (updateStatus [] ⟨"A", []⟩ "x" "completed" 0).1 = [] ∧
    (cancelOrder [] ⟨"A", []⟩ "x" 0).1 = [] :=
  ⟨(c9_errors_leave_store_unchanged [] ⟨"A", []⟩ "x" "completed" 0 404
      .ORDER_NOT_FOUND "Заказ не найден" []).1 (by decide),
   (c9_errors_leave_store_unchanged [] ⟨"A", []⟩ "x" "completed" 0 404
      .ORDER_NOT_FOUND "Заказ не найден" []).2 (by decide)⟩

end OrdersService

namespace Gateway

/-- C8 (spec-modelled): a CLOSED breaker whose rolling window, after recording
the call's outcome, reaches the minimum volume with the failure percentage
above the threshold transitions to OPEN; while OPEN and inside the cool-down,
every call returns the fallback without contacting the backend and the breaker
is unchanged; once the cool-down has elapsed (or in HALF_OPEN) exactly one
trial call reaches the backend — its success moves the breaker to CLOSED with
counters reset, its failure or timeout moves it back to OPEN with the
cool-down restarted. -/
theorem c8_breaker_lifecycle (cfg : Config) (b : Breaker) (now : Nat)
    (oc : Outcome) :
    (b.state = .CLOSED →
      tripped cfg (trailing cfg now b.window ++ [(now, oc == .success)]) = true →
      (call cfg b now oc).1.state = .OPEN ∧
      (call cfg b now oc).1.openedAt = now ∧
      (call cfg b now oc).2 = .backend oc) ∧
    (b.state = .OPEN → now < b.openedAt + cfg.coolDownMs →
      call cfg b now oc = (b, .fallback)) ∧
    ((b.state = .OPEN ∧ b.openedAt + cfg.coolDownMs ≤ now) ∨ b.state = .HALF_OPEN →
      (call cfg b now oc).2 = .backend oc ∧
      (oc = .success →
        (call cfg b now oc).1 =
          { state := .CLOSED, window := [], openedAt := b.openedAt }) ∧
      (oc ≠ .success →
        (call cfg b now oc).1.state = .OPEN ∧
        (call cfg b now oc).1.openedAt = now)) := by
  refine ⟨?_, ?_, ?_⟩
  · intro hs htrip
    simp [call, hs, htrip]
  · intro hs hcool
    simp [call, hs, Nat.not_le.mpr hcool, hcool]
  · intro hs
    have hred : call cfg b now oc = trialCall now oc b := by
      rcases hs with ⟨hs, hcool⟩ | hs
      · simp [call, hs, Nat.not_lt.mpr hcool]
      · simp [call, hs]
    rw [hred]
    refine ⟨?_, ?_, ?_⟩
    · cases oc <;> simp [trialCall]
    · intro hoc
      rw [hoc]
      simp [trialCall]
    · intro hoc
      cases oc with
      | success => exact absurd rfl hoc
      | failure => simp [trialCall]
      | timeout => simp [trialCall]

/-- Closed witness for C8: with threshold 50%, minimum volume 1 and cool-down
5000 — two failures trip a CLOSED breaker to OPEN; the OPEN breaker answers
with the fallback before the cool-down; at the cool-down boundary the trial's
success closes the breaker and resets its window, while a trial failure
reopens it with the cool-down restarted. -/
theorem c8_breaker_lifecycle_witness :
    (call ⟨50, 1000, 1, 5000⟩ ⟨.CLOSED, [(0, false)], 0⟩ 1 .failure).1.state = .OPEN ∧
    call ⟨50, 1000, 1, 5000⟩ ⟨.OPEN, [], 0⟩ 10 .success = (⟨.OPEN, [], 0⟩, .fallback) ∧
    (call ⟨50, 1000, 1, 5000⟩ ⟨.OPEN, [], 0⟩ 5000 .success).1 =
      ⟨.CLOSED, [], 0⟩ ∧
    (call ⟨50, 1000, 1, 5000⟩ ⟨.OPEN, [], 0⟩ 5000 .failure).1.state = .OPEN ∧
    (call ⟨50, 1000, 1, 5000⟩ ⟨.OPEN, [], 0⟩ 5000 .failure).1.openedAt = 5000 := by
  have h1 := (c8_breaker_lifecycle ⟨50, 1000, 1, 5000⟩ ⟨.CLOSED, [(0, false)], 0⟩ 1
    .failure).1 rfl (by decide)
  have h2 := (c8_breaker_lifecycle ⟨50, 1000, 1, 5000⟩ ⟨.OPEN, [], 0⟩ 10 .success).2.1
    rfl (by decide)
  have h3 := ((c8_breaker_lifecycle ⟨50, 1000, 1, 5000⟩ ⟨.OPEN, [], 0⟩ 5000
    .success).2.2 (Or.inl ⟨rfl, by decide⟩)).2.1 rfl
  have h4 := ((c8_breaker_lifecycle ⟨50, 1000, 1, 5000⟩ ⟨.OPEN, [], 0⟩ 5000
    .failure).2.2 (Or.inl ⟨rfl, by decide⟩)).2.2 (by decide)
  exact ⟨h1.1, h2, h3, h4.1, h4.2⟩

end Gateway
